import Mathlib

/-! Verification development for the auto_bridge token swap and bridge
engine (src/lib.rs).  Amounts, addresses, transaction hashes and private
keys are modelled as natural numbers; 256-bit overflow is made explicit
wherever the underlying checked arithmetic of the Uint256 type can panic.
Each asynchronous sub-operation (an RPC call, a transaction submission, a
wait for a contract event) is modelled by an explicit outcome carrying a
resolution time, so that the join and timeout future combinators used by
the source can be expressed as total functions on outcomes. -/

/-- Errors surfaced by the engine: a fired timer, an undersized read-only
response, or an opaque transport or signing failure of an external
collaborator, carried with an arbitrary code. -/
inductive Err where
  | timeout
  | malformedResponse
  | external (code : Nat)
deriving DecidableEq

/-- Outcome of one asynchronous sub-operation: it resolves successfully at
some time, fails at some time, or never resolves. -/
inductive Outcome (α : Type) where
  | ok (t : Nat) (v : α)
  | err (t : Nat) (e : Err)
  | never
deriving DecidableEq

/-- Result of one public operation of the engine.  In addition to the
outcome cases, polling the returned future can abort the process by
panicking: an unchecked vector index or a checked-arithmetic overflow. -/
inductive OpResult (α : Type) where
  | ok (t : Nat) (v : α)
  | err (t : Nat) (e : Err)
  | panicked (t : Nat)
  | never
deriving DecidableEq

/-- The join combinator of futures 0.1: the joined future fails as soon as
either side fails, succeeds once both sides have succeeded, and never
resolves when one side never resolves and the other does not fail. -/
def Outcome.join {α β : Type} : Outcome α → Outcome β → Outcome (α × β)
  | .err t1 e1, .err t2 e2 => if t2 < t1 then .err t2 e2 else .err t1 e1
  | .err t1 e1, _ => .err t1 e1
  | _, .err t2 e2 => .err t2 e2
  | .ok t1 v1, .ok t2 v2 => .ok (max t1 t2) (v1, v2)
  | _, _ => .never

/-- The timeout combinator of futures-timer: the inner result passes
through when it is ready no later than the deadline, otherwise the timer
fires at the deadline and yields a timeout error. -/
def Outcome.timeout {α : Type} (limit : Nat) : Outcome α → Outcome α
  | .ok t v => if t ≤ limit then .ok t v else .err limit .timeout
  | .err t e => if t ≤ limit then .err t e else .err limit .timeout
  | .never => .err limit .timeout

/-- A block header, of which the engine reads only the timestamp. -/
structure Block where
  timestamp : Nat
deriving DecidableEq

/-- A contract event log; each topic is a 32-byte word, modelled as a list
of byte values. -/
structure Event where
  topics : List (List Nat)
deriving DecidableEq

/-- An ABI argument passed to the external encoder. -/
inductive AbiToken where
  | uint (n : Nat)
  | addr (a : Nat)
deriving DecidableEq

/-- The data field of a transaction: either the external ABI encoding of a
call with a signature and arguments, or raw bytes (empty for a plain value
transfer). -/
inductive Payload where
  | encoded (signature : String) (args : List AbiToken)
  | raw (bytes : List Nat)
deriving DecidableEq

/-- Per-call gas and network options of web30 send_transaction. -/
inductive SendTxOption where
  | gasPriceMultiplier (m : Nat)
  | gasLimit (l : Nat)
  | gasPrice (p : Nat)
  | networkId (id : Nat)
deriving DecidableEq

/-- A transaction submission request as handed to web30 send_transaction:
destination address, payload, attached value, sender, signing key and the
option list. -/
structure TxRequest where
  to_address : Nat
  data : Payload
  value : Nat
  own_address : Nat
  secret : Nat
  options : List SendTxOption
deriving DecidableEq

/-- An event subscription as handed to web30 wait_for_event_alt: emitting
contract, event signature and the three optional indexed topic filters. -/
structure EventFilter where
  contract_address : Nat
  event_signature : String
  topic1 : Option (List Nat)
  topic2 : Option (List Nat)
  topic3 : Option (List Nat)
deriving DecidableEq

/-- The configuration held by the engine: the AMM address, the two bridge
addresses, the token contract address, the controlled account and its
signing key. -/
structure TokenBridge where
  uniswap_address : Nat
  xdai_foreign_bridge_address : Nat
  xdai_home_bridge_address : Nat
  foreign_dai_contract_address : Nat
  own_address : Nat
  secret : Nat
deriving DecidableEq

/-- Big-endian interpretation of a byte string as an unsigned integer,
following Uint256 from_bytes_be. -/
def from_bytes_be (bs : List Nat) : Nat :=
  bs.foldl (fun acc b => acc * 256 + b) 0

/-- Big-endian encoding of a value into a fixed number of bytes, most
significant byte first. -/
def to_bytes_be : Nat → Nat → List Nat
  | 0, _ => []
  | w + 1, n => to_bytes_be w (n / 256) ++ [n % 256]

/-- The largest representable 256-bit value, Uint256 max_value. -/
def uint256_max_value : Nat := 2 ^ 256 - 1

/-- Addition on Uint256 values: the num256 crate panics when the sum does
not fit into 256 bits, so the sum is defined only inside the range and an
overflow yields none (a panic), never a wrapped value. -/
def uint256_add (a b : Nat) : Option Nat :=
  if a + b ≤ uint256_max_value then some (a + b) else none

/-- The slice pattern resp.get(0..32) of the response decoders: the first
32 bytes when the response is long enough, and none otherwise. -/
def get_slice32 (resp : List Nat) : Option (List Nat) :=
  if 32 ≤ resp.length then some (resp.take 32) else none

/-- Quote Reader, coin to token direction (eth_to_dai_price): decodes the
contract-call response as one big-endian 256-bit value, failing with a
malformed-response error when the response is shorter than 32 bytes.  The
callO argument is the outcome of the external read-only RPC call. -/
def eth_to_dai_price (tb : TokenBridge) (amount : Nat)
    (callO : Outcome (List Nat)) : Outcome Nat :=
  match callO with
  | .ok t tokens_bought =>
    match get_slice32 tokens_bought with
    | some val => .ok t (from_bytes_be val)
    | none => .err t .malformedResponse
  | .err t e => .err t e
  | .never => .never

/-- Quote Reader, token to coin direction (dai_to_eth_price): same decode
as the other direction. -/
def dai_to_eth_price (tb : TokenBridge) (amount : Nat)
    (callO : Outcome (List Nat)) : Outcome Nat :=
  match callO with
  | .ok t eth_bought =>
    match get_slice32 eth_bought with
    | some val => .ok t (from_bytes_be val)
    | none => .err t .malformedResponse
  | .err t e => .err t e
  | .never => .never

/-- Allowance Checker (check_if_uniswap_dai_approved): decodes the
allowance and compares it against half of the largest 256-bit value. -/
def check_if_uniswap_dai_approved (tb : TokenBridge)
    (callO : Outcome (List Nat)) : Outcome Bool :=
  match callO with
  | .ok t allowance =>
    match get_slice32 allowance with
    | some val => .ok t (decide (from_bytes_be val > uint256_max_value / 2))
    | none => .err t .malformedResponse
  | .err t e => .err t e
  | .never => .never

/-- Balance Reader (get_dai_balance): decodes the balance response for an
arbitrary queried address. -/
def get_dai_balance (tb : TokenBridge) (address : Nat)
    (callO : Outcome (List Nat)) : Outcome Nat :=
  match callO with
  | .ok t balance =>
    match get_slice32 balance with
    | some val => .ok t (from_bytes_be val)
    | none => .err t .malformedResponse
  | .err t e => .err t e
  | .never => .never

/-- The swap transaction submitted by eth_to_dai_swap: an
ethToTokenSwapInput call at the AMM carrying the slippage-bounded minimum
output (quote divided by 40, then multiplied by 39) and the deadline, with
the input amount attached as value and the fixed gas options. -/
def eth_to_dai_swap_request (tb : TokenBridge)
    (eth_amount quoted_dai deadline : Nat) : TxRequest :=
  { to_address := tb.uniswap_address
    data := .encoded "ethToTokenSwapInput(uint256,uint256)"
      [.uint (quoted_dai / 40 * 39), .uint deadline]
    value := eth_amount
    own_address := tb.own_address
    secret := tb.secret
    options := [.gasPriceMultiplier 2, .gasLimit 60000] }

/-- The swap transaction submitted by dai_to_eth_swap: a
tokenToEthSwapInput call at the AMM carrying the sold amount, the
slippage-bounded minimum output and the deadline, with zero attached value
and the fixed gas options. -/
def dai_to_eth_swap_request (tb : TokenBridge)
    (dai_amount quoted_eth deadline : Nat) : TxRequest :=
  { to_address := tb.uniswap_address
    data := .encoded "tokenToEthSwapInput(uint256,uint256,uint256)"
      [.uint dai_amount, .uint (quoted_eth / 40 * 39), .uint deadline]
    value := 0
    own_address := tb.own_address
    secret := tb.secret
    options := [.gasPriceMultiplier 2, .gasLimit 60000] }

/-- The event subscription of eth_to_dai_swap: a TokenPurchase event at
the AMM with the first indexed topic filtered to the own address. -/
def tokenPurchaseFilter (tb : TokenBridge) : EventFilter :=
  { contract_address := tb.uniswap_address
    event_signature := "TokenPurchase(address,uint256,uint256)"
    topic1 := some [tb.own_address]
    topic2 := none
    topic3 := none }

/-- The event subscription of dai_to_eth_swap: an EthPurchase event at the
AMM with the first indexed topic filtered to the own address. -/
def ethPurchaseFilter (tb : TokenBridge) : EventFilter :=
  { contract_address := tb.uniswap_address
    event_signature := "EthPurchase(address,uint256,uint256)"
    topic1 := some [tb.own_address]
    topic2 := none
    topic3 := none }

/-- The approval transaction submitted by approve_uniswap_dai_transfers:
an approve call at the token contract naming the AMM as spender with the
largest representable amount, zero attached value and the gas price
multiplier option. -/
def approve_request (tb : TokenBridge) : TxRequest :=
  { to_address := tb.foreign_dai_contract_address
    data := .encoded "approve(address,uint256)"
      [.addr tb.uniswap_address, .uint uint256_max_value]
    value := 0
    own_address := tb.own_address
    secret := tb.secret
    options := [.gasPriceMultiplier 2] }

/-- The event subscription of approve_uniswap_dai_transfers: an Approval
event at the token contract with owner filtered to the own address,
spender filtered to the AMM and no filter on the value topic. -/
def approvalFilter (tb : TokenBridge) : EventFilter :=
  { contract_address := tb.foreign_dai_contract_address
    event_signature := "Approval(address,address,uint256)"
    topic1 := some [tb.own_address]
    topic2 := some [tb.uniswap_address]
    topic3 := none }

/-- The common second phase of both swap directions: the swap submission
is joined with the event wait, only the latter being wrapped in the
timeout; on a successful join the realized output is read from the fourth
topic slot of the matched event with an unchecked index, which panics when
the event carries fewer than four topics. -/
def swap_submit_and_confirm (timeout : Nat) (req : TxRequest)
    (filter : EventFilter) (sub : TxRequest → Outcome Nat)
    (ev : EventFilter → Outcome Event) : OpResult Nat :=
  match Outcome.join (sub req) (Outcome.timeout timeout (ev filter)) with
  | .err t e => .err t e
  | .never => .never
  | .ok t (_tx, response) =>
    match response.topics.get? 3 with
    | some topic => .ok t (from_bytes_be topic)
    | none => .panicked t

/-- Swap Executor, coin to token direction (eth_to_dai_swap).  The latest
block and the quote are read as a join; then the deadline is the block
timestamp plus the timeout under the panicking Uint256 addition; then the
submit-and-confirm phase runs with the built swap request and the
TokenPurchase subscription. -/
def eth_to_dai_swap (tb : TokenBridge) (eth_amount timeout : Nat)
    (blockO : Outcome Block) (priceCallO : Outcome (List Nat))
    (sub : TxRequest → Outcome Nat) (ev : EventFilter → Outcome Event) :
    OpResult Nat :=
  match Outcome.join blockO (eth_to_dai_price tb eth_amount priceCallO) with
  | .err t e => .err t e
  | .never => .never
  | .ok t0 (block, expected_dai) =>
    match uint256_add block.timestamp timeout with
    | none => .panicked t0
    | some deadline =>
      swap_submit_and_confirm timeout
        (eth_to_dai_swap_request tb eth_amount expected_dai deadline)
        (tokenPurchaseFilter tb) sub ev

/-- Swap Executor, token to coin direction (dai_to_eth_swap), symmetric to
the other direction with zero attached value and the EthPurchase
subscription. -/
def dai_to_eth_swap (tb : TokenBridge) (dai_amount timeout : Nat)
    (blockO : Outcome Block) (priceCallO : Outcome (List Nat))
    (sub : TxRequest → Outcome Nat) (ev : EventFilter → Outcome Event) :
    OpResult Nat :=
  match Outcome.join blockO (dai_to_eth_price tb dai_amount priceCallO) with
  | .err t e => .err t e
  | .never => .never
  | .ok t0 (block, expected_eth) =>
    match uint256_add block.timestamp timeout with
    | none => .panicked t0
    | some deadline =>
      swap_submit_and_confirm timeout
        (dai_to_eth_swap_request tb dai_amount expected_eth deadline)
        (ethPurchaseFilter tb) sub ev

/-- Approval Submitter (approve_uniswap_dai_transfers): the submission and
the event wait are joined, the timeout wraps the whole join, and success
yields the unit value. -/
def approve_uniswap_dai_transfers (tb : TokenBridge) (timeout : Nat)
    (sub : TxRequest → Outcome Nat) (ev : EventFilter → Outcome Event) :
    OpResult Unit :=
  match Outcome.timeout timeout
      (Outcome.join (sub (approve_request tb)) (ev (approvalFilter tb))) with
  | .ok t _ => .ok t ()
  | .err t e => .err t e
  | .never => .never

/-- The outbound bridge transaction of dai_to_xdai_bridge: a token
transfer call at the token contract moving the full amount to the
outbound bridge address, zero attached value and no options. -/
def dai_to_xdai_request (tb : TokenBridge) (dai_amount : Nat) : TxRequest :=
  { to_address := tb.foreign_dai_contract_address
    data := .encoded "transfer(address,uint256)"
      [.addr tb.xdai_foreign_bridge_address, .uint dai_amount]
    value := 0
    own_address := tb.own_address
    secret := tb.secret
    options := [] }

/-- Bridge Transferer, outbound direction (dai_to_xdai_bridge): the
returned future is exactly the submission future, with no event
correlation. -/
def dai_to_xdai_bridge (tb : TokenBridge) (dai_amount : Nat)
    (sub : TxRequest → Outcome Nat) : Outcome Nat :=
  sub (dai_to_xdai_request tb dai_amount)

/-- The inbound bridge transaction of xdai_to_dai_bridge: a plain value
transfer with empty payload to the inbound bridge address, carrying the
full amount, a fixed gas price and the explicit network identifier of the
secondary chain. -/
def xdai_to_dai_request (tb : TokenBridge) (xdai_amount : Nat) : TxRequest :=
  { to_address := tb.xdai_home_bridge_address
    data := .raw []
    value := xdai_amount
    own_address := tb.own_address
    secret := tb.secret
    options := [.gasPrice 10000000000, .networkId 100] }

/-- Bridge Transferer, inbound direction (xdai_to_dai_bridge): the
returned future is exactly the submission future, with no event
correlation. -/
def xdai_to_dai_bridge (tb : TokenBridge) (xdai_amount : Nat)
    (sub : TxRequest → Outcome Nat) : Outcome Nat :=
  sub (xdai_to_dai_request tb xdai_amount)

/-- A sample configuration used to instantiate universally quantified
statements at concrete inputs. -/
def tbSample : TokenBridge :=
  { uniswap_address := 10
    xdai_foreign_bridge_address := 11
    xdai_home_bridge_address := 12
    foreign_dai_contract_address := 13
    own_address := 14
    secret := 15 }

/-! Lemmas about the future combinators. -/

theorem Outcome.join_eq_ok {α β : Type} {a : Outcome α} {b : Outcome β}
    {t : Nat} {v : α × β} (h : Outcome.join a b = .ok t v) :
    ∃ t1 t2, a = .ok t1 v.1 ∧ b = .ok t2 v.2 ∧ t = max t1 t2 := by
  cases a with
  | ok t1 v1 =>
    cases b with
    | ok t2 v2 =>
      simp only [Outcome.join, Outcome.ok.injEq] at h
      obtain ⟨ht, hv⟩ := h
      subst hv
      exact ⟨t1, t2, rfl, rfl, ht.symm⟩
    | err t2 e2 => simp [Outcome.join] at h
    | never => simp [Outcome.join] at h
  | err t1 e1 =>
    cases b with
    | ok t2 v2 => simp [Outcome.join] at h
    | err t2 e2 =>
      simp only [Outcome.join] at h
      split at h <;> cases h
    | never => simp [Outcome.join] at h
  | never =>
    cases b with
    | ok t2 v2 => simp [Outcome.join] at h
    | err t2 e2 => simp [Outcome.join] at h
    | never => simp [Outcome.join] at h

theorem Outcome.join_ok_ok {α β : Type} (t1 t2 : Nat) (v1 : α) (v2 : β) :
    Outcome.join (.ok t1 v1) (.ok t2 v2) = .ok (max t1 t2) (v1, v2) := rfl

theorem Outcome.join_err_left {α β : Type} {a : Outcome α} {t1 : Nat}
    {e1 : Err} (b : Outcome β) (ha : a = .err t1 e1) :
    ∃ t' e', Outcome.join a b = .err t' e' := by
  subst ha
  cases b with
  | ok t2 v2 => exact ⟨t1, e1, rfl⟩
  | err t2 e2 =>
    simp only [Outcome.join]
    split
    · exact ⟨t2, e2, rfl⟩
    · exact ⟨t1, e1, rfl⟩
  | never => exact ⟨t1, e1, rfl⟩

theorem Outcome.join_err_right {α β : Type} (a : Outcome α) {b : Outcome β}
    {t2 : Nat} {e2 : Err} (hb : b = .err t2 e2) :
    ∃ t' e', Outcome.join a b = .err t' e' := by
  subst hb
  cases a with
  | ok t1 v1 => exact ⟨t2, e2, rfl⟩
  | err t1 e1 =>
    simp only [Outcome.join]
    split
    · exact ⟨t2, e2, rfl⟩
    · exact ⟨t1, e1, rfl⟩
  | never => exact ⟨t2, e2, rfl⟩

theorem Outcome.join_never_left {α β : Type} {a : Outcome α} (b : Outcome β)
    (ha : a = .never) (hb : ∀ t2 e2, b ≠ .err t2 e2) :
    Outcome.join a b = .never := by
  subst ha
  cases b with
  | ok t2 v2 => rfl
  | err t2 e2 => exact absurd rfl (hb t2 e2)
  | never => rfl

theorem Outcome.timeout_eq_ok {α : Type} {limit t : Nat} {v : α}
    {o : Outcome α} (h : Outcome.timeout limit o = .ok t v) :
    o = .ok t v ∧ t ≤ limit := by
  cases o with
  | ok t1 v1 =>
    simp only [Outcome.timeout] at h
    split at h
    · cases h
      exact ⟨rfl, by assumption⟩
    · cases h
  | err t1 e1 =>
    simp only [Outcome.timeout] at h
    split at h <;> cases h
  | never =>
    simp only [Outcome.timeout] at h
    cases h

theorem Outcome.timeout_ok_early {α : Type} {limit t : Nat} (v : α)
    (h : t ≤ limit) : Outcome.timeout limit (.ok t v) = .ok t v := by
  unfold Outcome.timeout
  exact if_pos h

theorem Outcome.timeout_ok_late {α : Type} {limit t : Nat} (v : α)
    (h : limit < t) : Outcome.timeout limit (.ok t v) = .err limit .timeout := by
  unfold Outcome.timeout
  exact if_neg (Nat.not_le.mpr h)

theorem Outcome.timeout_of_never {α : Type} (limit : Nat) :
    Outcome.timeout (α := α) limit .never = .err limit .timeout := rfl

theorem Outcome.timeout_err {α : Type} (limit : Nat) {o : Outcome α}
    {t : Nat} {e : Err} (h : o = .err t e) :
    ∃ t' e', Outcome.timeout limit o = .err t' e' := by
  subst h
  simp only [Outcome.timeout]
  split
  · exact ⟨t, e, rfl⟩
  · exact ⟨limit, .timeout, rfl⟩

/-! Lemmas about big-endian byte strings. -/

theorem from_bytes_be_append (bs : List Nat) (b : Nat) :
    from_bytes_be (bs ++ [b]) = from_bytes_be bs * 256 + b := by
  simp [from_bytes_be, List.foldl_append]

theorem to_bytes_be_length (w n : Nat) : (to_bytes_be w n).length = w := by
  induction w generalizing n with
  | zero => rfl
  | succ w ih => simp [to_bytes_be, ih]

theorem from_to_bytes_be (w n : Nat) :
    from_bytes_be (to_bytes_be w n) = n % 256 ^ w := by
  induction w generalizing n with
  | zero => simp [to_bytes_be, from_bytes_be, Nat.mod_one]
  | succ w ih =>
    rw [to_bytes_be, from_bytes_be_append, ih, pow_succ, Nat.mul_comm (256 ^ w) 256,
      Nat.mod_mul, Nat.add_comm, Nat.mul_comm 256 (n / 256 % 256 ^ w)]

theorem from_to_bytes_be_32 {n : Nat} (h : n ≤ uint256_max_value) :
    from_bytes_be (to_bytes_be 32 n) = n := by
  rw [from_to_bytes_be]
  have h2 : (256 : Nat) ^ 32 = 2 ^ 256 := by norm_num
  rw [h2]
  exact Nat.mod_eq_of_lt (Nat.lt_of_le_of_lt h (by unfold uint256_max_value; omega))

theorem get_slice32_to_bytes_be (n : Nat) :
    get_slice32 (to_bytes_be 32 n) = some (to_bytes_be 32 n) := by
  unfold get_slice32
  rw [if_pos (by rw [to_bytes_be_length])]
  rw [List.take_of_length_le (by rw [to_bytes_be_length])]

theorem get_slice32_of_le {resp : List Nat} (h : 32 ≤ resp.length) :
    get_slice32 resp = some (resp.take 32) := by
  unfold get_slice32
  exact if_pos h

theorem get_slice32_of_lt {resp : List Nat} (h : resp.length < 32) :
    get_slice32 resp = none := by
  unfold get_slice32
  exact if_neg (Nat.not_le.mpr h)

/-! Evaluation lemmas for the operation models. -/

theorem eth_to_dai_price_decodes (tb : TokenBridge) (amount t : Nat)
    {resp : List Nat} (hlen : 32 ≤ resp.length) :
    eth_to_dai_price tb amount (.ok t resp)
      = .ok t (from_bytes_be (resp.take 32)) := by
  simp only [eth_to_dai_price, get_slice32_of_le hlen]

theorem dai_to_eth_price_decodes (tb : TokenBridge) (amount t : Nat)
    {resp : List Nat} (hlen : 32 ≤ resp.length) :
    dai_to_eth_price tb amount (.ok t resp)
      = .ok t (from_bytes_be (resp.take 32)) := by
  simp only [dai_to_eth_price, get_slice32_of_le hlen]

theorem check_if_uniswap_dai_approved_decodes (tb : TokenBridge)
    {t A : Nat} (hA : A ≤ uint256_max_value) :
    check_if_uniswap_dai_approved tb (.ok t (to_bytes_be 32 A))
      = .ok t (decide (A > uint256_max_value / 2)) := by
  simp only [check_if_uniswap_dai_approved, get_slice32_to_bytes_be,
    from_to_bytes_be_32 hA]

theorem eth_to_dai_swap_eval (tb : TokenBridge)
    (amount T tB ts tP : Nat) (resp : List Nat)
    (sub : TxRequest → Outcome Nat) (ev : EventFilter → Outcome Event)
    (hlen : 32 ≤ resp.length) (hadd : ts + T ≤ uint256_max_value) :
    eth_to_dai_swap tb amount T (.ok tB ⟨ts⟩) (.ok tP resp) sub ev
      = swap_submit_and_confirm T
          (eth_to_dai_swap_request tb amount (from_bytes_be (resp.take 32))
            (ts + T))
          (tokenPurchaseFilter tb) sub ev := by
  simp only [eth_to_dai_swap, eth_to_dai_price_decodes tb amount tP hlen,
    Outcome.join_ok_ok, uint256_add, if_pos hadd]

theorem eth_to_dai_swap_overflow (tb : TokenBridge)
    (amount T tB ts tP : Nat) (resp : List Nat)
    (sub : TxRequest → Outcome Nat) (ev : EventFilter → Outcome Event)
    (hlen : 32 ≤ resp.length) (hadd : uint256_max_value < ts + T) :
    eth_to_dai_swap tb amount T (.ok tB ⟨ts⟩) (.ok tP resp) sub ev
      = .panicked (max tB tP) := by
  simp only [eth_to_dai_swap, eth_to_dai_price_decodes tb amount tP hlen,
    Outcome.join_ok_ok, uint256_add, if_neg (Nat.not_le.mpr hadd)]

theorem dai_to_eth_swap_eval (tb : TokenBridge)
    (amount T tB ts tP : Nat) (resp : List Nat)
    (sub : TxRequest → Outcome Nat) (ev : EventFilter → Outcome Event)
    (hlen : 32 ≤ resp.length) (hadd : ts + T ≤ uint256_max_value) :
    dai_to_eth_swap tb amount T (.ok tB ⟨ts⟩) (.ok tP resp) sub ev
      = swap_submit_and_confirm T
          (dai_to_eth_swap_request tb amount (from_bytes_be (resp.take 32))
            (ts + T))
          (ethPurchaseFilter tb) sub ev := by
  simp only [dai_to_eth_swap, dai_to_eth_price_decodes tb amount tP hlen,
    Outcome.join_ok_ok, uint256_add, if_pos hadd]

theorem dai_to_eth_swap_overflow (tb : TokenBridge)
    (amount T tB ts tP : Nat) (resp : List Nat)
    (sub : TxRequest → Outcome Nat) (ev : EventFilter → Outcome Event)
    (hlen : 32 ≤ resp.length) (hadd : uint256_max_value < ts + T) :
    dai_to_eth_swap tb amount T (.ok tB ⟨ts⟩) (.ok tP resp) sub ev
      = .panicked (max tB tP) := by
  simp only [dai_to_eth_swap, dai_to_eth_price_decodes tb amount tP hlen,
    Outcome.join_ok_ok, uint256_add, if_neg (Nat.not_le.mpr hadd)]

theorem swap_submit_and_confirm_err_of_join
    {T : Nat} {req : TxRequest} {filter : EventFilter}
    {sub : TxRequest → Outcome Nat} {ev : EventFilter → Outcome Event}
    {t : Nat} {e : Err}
    (h : Outcome.join (sub req) (Outcome.timeout T (ev filter)) = .err t e) :
    swap_submit_and_confirm T req filter sub ev = .err t e := by
  simp only [swap_submit_and_confirm, h]

/-! The claims. -/

/-- C2: in both swap directions the slippage-protected minimum output
embedded in the submitted swap call equals the quoted output divided by 40
with truncating integer division, then multiplied by 39; this is at most
the quote, a quote of 4000 gives 3900, and a quote of 39 truncates to
0. -/
theorem swap_min_output_slippage (tb : TokenBridge) (a d Q : Nat) :
    (eth_to_dai_swap_request tb a Q d).data
      = Payload.encoded "ethToTokenSwapInput(uint256,uint256)"
          [.uint (Q / 40 * 39), .uint d]
  ∧ (dai_to_eth_swap_request tb a Q d).data
      = Payload.encoded "tokenToEthSwapInput(uint256,uint256,uint256)"
          [.uint a, .uint (Q / 40 * 39), .uint d]
  ∧ Q / 40 * 39 ≤ Q
  ∧ (eth_to_dai_swap_request tb a 4000 d).data
      = Payload.encoded "ethToTokenSwapInput(uint256,uint256)"
          [.uint 3900, .uint d]
  ∧ (eth_to_dai_swap_request tb a 39 d).data
      = Payload.encoded "ethToTokenSwapInput(uint256,uint256)"
          [.uint 0, .uint d] := by
  refine ⟨rfl, rfl, ?_, rfl, rfl⟩
  calc Q / 40 * 39 ≤ Q / 40 * 40 := Nat.mul_le_mul_left _ (by norm_num)
    _ ≤ Q := Nat.div_mul_le_self Q 40

/-- C9: the submitted swap transaction goes to the AMM address, attaches
the input amount as transferred value in the coin-to-token direction and
zero value in the token-to-coin direction, and in both directions carries
the gas price multiplier 2 and gas limit 60000 options. -/
theorem swap_tx_value_and_gas (tb : TokenBridge) (a Q d : Nat) :
    (eth_to_dai_swap_request tb a Q d).value = a
  ∧ (dai_to_eth_swap_request tb a Q d).value = 0
  ∧ (eth_to_dai_swap_request tb a Q d).options
      = [.gasPriceMultiplier 2, .gasLimit 60000]
  ∧ (dai_to_eth_swap_request tb a Q d).options
      = [.gasPriceMultiplier 2, .gasLimit 60000]
  ∧ (eth_to_dai_swap_request tb a Q d).to_address = tb.uniswap_address
  ∧ (dai_to_eth_swap_request tb a Q d).to_address = tb.uniswap_address :=
  ⟨rfl, rfl, rfl, rfl, rfl, rfl⟩

/-- C10: each bridge transfer is exactly one transaction submission with
no event wait, the outbound one being a token transfer of the full amount
to the outbound bridge address with no options, the inbound one a plain
value transfer with empty payload to the inbound bridge address with a
fixed gas price and network identifier 100. -/
theorem bridge_transfers_submission_only (tb : TokenBridge) (amount : Nat)
    (sub : TxRequest → Outcome Nat) :
    dai_to_xdai_bridge tb amount sub = sub (dai_to_xdai_request tb amount)
  ∧ dai_to_xdai_request tb amount
      = { to_address := tb.foreign_dai_contract_address
          data := .encoded "transfer(address,uint256)"
            [.addr tb.xdai_foreign_bridge_address, .uint amount]
          value := 0
          own_address := tb.own_address
          secret := tb.secret
          options := [] }
  ∧ xdai_to_dai_bridge tb amount sub = sub (xdai_to_dai_request tb amount)
  ∧ xdai_to_dai_request tb amount
      = { to_address := tb.xdai_home_bridge_address
          data := .raw []
          value := amount
          own_address := tb.own_address
          secret := tb.secret
          options := [.gasPrice 10000000000, .networkId 100] } :=
  ⟨rfl, rfl, rfl, rfl⟩

/-- C5: every reader fails with a malformed-response error on a response
shorter than 32 bytes and succeeds on a response of at least 32 bytes,
decoding its first 32 bytes big-endian; 32 zero bytes decode to 0 and the
32-byte encoding of 1000000 decodes to 1000000. -/
theorem readers_decode_first_32_bytes (tb : TokenBridge)
    (amount address t : Nat) (resp : List Nat) :
    (resp.length < 32 →
       eth_to_dai_price tb amount (.ok t resp) = .err t .malformedResponse
     ∧ dai_to_eth_price tb amount (.ok t resp) = .err t .malformedResponse
     ∧ check_if_uniswap_dai_approved tb (.ok t resp)
         = .err t .malformedResponse
     ∧ get_dai_balance tb address (.ok t resp) = .err t .malformedResponse)
  ∧ (32 ≤ resp.length →
       eth_to_dai_price tb amount (.ok t resp)
         = .ok t (from_bytes_be (resp.take 32))
     ∧ dai_to_eth_price tb amount (.ok t resp)
         = .ok t (from_bytes_be (resp.take 32))
     ∧ get_dai_balance tb address (.ok t resp)
         = .ok t (from_bytes_be (resp.take 32))
     ∧ check_if_uniswap_dai_approved tb (.ok t resp)
         = .ok t (decide (from_bytes_be (resp.take 32)
             > uint256_max_value / 2)))
  ∧ from_bytes_be (List.replicate 32 0) = 0
  ∧ from_bytes_be (List.replicate 29 0 ++ [15, 66, 64]) = 1000000 := by
  refine ⟨fun h => ?_, fun h => ?_, by rfl, by rfl⟩
  · refine ⟨?_, ?_, ?_, ?_⟩ <;>
      simp only [eth_to_dai_price, dai_to_eth_price,
        check_if_uniswap_dai_approved, get_dai_balance, get_slice32_of_lt h]
  · refine ⟨?_, ?_, ?_, ?_⟩ <;>
      simp only [eth_to_dai_price, dai_to_eth_price,
        check_if_uniswap_dai_approved, get_dai_balance, get_slice32_of_le h]

/-- C5 witness: the short-response and decode branches at concrete
responses. -/
theorem readers_decode_first_32_bytes_witness :
    eth_to_dai_price tbSample 1 (.ok 0 (List.replicate 31 0))
      = .err 0 .malformedResponse
  ∧ get_dai_balance tbSample 5 (.ok 0 (List.replicate 32 0))
      = .ok 0 (from_bytes_be ((List.replicate 32 0).take 32)) := by
  refine ⟨((readers_decode_first_32_bytes tbSample 1 5 0
      (List.replicate 31 0)).1 (by decide)).1,
    ((readers_decode_first_32_bytes tbSample 1 5 0
      (List.replicate 32 0)).2.1 (by decide)).2.2.1⟩

/-- C6: the allowance check decodes the allowance and returns true exactly
when it exceeds half of the largest 256-bit value; it returns false at
exactly that half and true one above it. -/
theorem allowance_threshold_half_max (tb : TokenBridge) (t A : Nat)
    (hA : A ≤ uint256_max_value) :
    check_if_uniswap_dai_approved tb (.ok t (to_bytes_be 32 A))
      = .ok t (decide (A > uint256_max_value / 2))
  ∧ check_if_uniswap_dai_approved tb
      (.ok t (to_bytes_be 32 (uint256_max_value / 2))) = .ok t false
  ∧ check_if_uniswap_dai_approved tb
      (.ok t (to_bytes_be 32 (uint256_max_value / 2 + 1))) = .ok t true := by
  refine ⟨check_if_uniswap_dai_approved_decodes tb hA, ?_, ?_⟩
  · rw [check_if_uniswap_dai_approved_decodes tb (Nat.div_le_self _ _)]
    simp
  · rw [check_if_uniswap_dai_approved_decodes tb
      (Nat.succ_le_of_lt (Nat.div_lt_self (by norm_num [uint256_max_value])
        (by norm_num)))]
    simp [Nat.lt_succ_self]

/-- C6 witness: the threshold comparison at the zero allowance. -/
theorem allowance_threshold_half_max_witness :
    check_if_uniswap_dai_approved tbSample (.ok 0 (to_bytes_be 32 0))
      = .ok 0 (decide (0 > uint256_max_value / 2))
  ∧ check_if_uniswap_dai_approved tbSample
      (.ok 0 (to_bytes_be 32 (uint256_max_value / 2))) = .ok 0 false
  ∧ check_if_uniswap_dai_approved tbSample
      (.ok 0 (to_bytes_be 32 (uint256_max_value / 2 + 1))) = .ok 0 true :=
  allowance_threshold_half_max tbSample 0 0 (Nat.zero_le _)

/-- C7: in both swap directions the deadline passed on to the AMM call is
the latest observed block timestamp plus the caller-supplied timeout
whenever that sum is representable in 256 bits, and when the sum exceeds
the 256-bit range the checked addition yields no value and both swap
operations panic instead of submitting a wrapped deadline. -/
theorem swap_deadline_sum_or_panic (tb : TokenBridge)
    (amount T tB ts tP : Nat) (resp : List Nat)
    (sub : TxRequest → Outcome Nat) (ev : EventFilter → Outcome Event)
    (hlen : 32 ≤ resp.length) :
    (ts + T ≤ uint256_max_value →
       uint256_add ts T = some (ts + T)
     ∧ eth_to_dai_swap tb amount T (.ok tB ⟨ts⟩) (.ok tP resp) sub ev
         = swap_submit_and_confirm T
             (eth_to_dai_swap_request tb amount (from_bytes_be (resp.take 32))
               (ts + T))
             (tokenPurchaseFilter tb) sub ev
     ∧ dai_to_eth_swap tb amount T (.ok tB ⟨ts⟩) (.ok tP resp) sub ev
         = swap_submit_and_confirm T
             (dai_to_eth_swap_request tb amount (from_bytes_be (resp.take 32))
               (ts + T))
             (ethPurchaseFilter tb) sub ev)
  ∧ (uint256_max_value < ts + T →
       uint256_add ts T = none
     ∧ eth_to_dai_swap tb amount T (.ok tB ⟨ts⟩) (.ok tP resp) sub ev
         = .panicked (max tB tP)
     ∧ dai_to_eth_swap tb amount T (.ok tB ⟨ts⟩) (.ok tP resp) sub ev
         = .panicked (max tB tP)) := by
  constructor
  · intro h
    exact ⟨by unfold uint256_add; rw [if_pos h],
      eth_to_dai_swap_eval tb amount T tB ts tP resp sub ev hlen h,
      dai_to_eth_swap_eval tb amount T tB ts tP resp sub ev hlen h⟩
  · intro h
    exact ⟨by unfold uint256_add; rw [if_neg (Nat.not_le.mpr h)],
      eth_to_dai_swap_overflow tb amount T tB ts tP resp sub ev hlen h,
      dai_to_eth_swap_overflow tb amount T tB ts tP resp sub ev hlen h⟩

/-- C7 witness: a representable sum passes through unchanged, and a sum
one above the maximum makes the swap panic rather than wrap. -/
theorem swap_deadline_sum_or_panic_witness :
    uint256_add 100 5 = some 105
  ∧ eth_to_dai_swap tbSample 1 1 (.ok 0 ⟨uint256_max_value⟩)
      (.ok 0 (List.replicate 32 0)) (fun _ => .never) (fun _ => .never)
      = .panicked (max 0 0) := by
  constructor
  · exact ((swap_deadline_sum_or_panic tbSample 1 5 0 100 0
      (List.replicate 32 0) (fun _ => .never) (fun _ => .never)
      (by decide)).1 (by norm_num [uint256_max_value])).1
  · exact ((swap_deadline_sum_or_panic tbSample 1 1 0 uint256_max_value 0
      (List.replicate 32 0) (fun _ => .never) (fun _ => .never)
      (by decide)).2 (Nat.lt_succ_self _)).2.1

/-- C8: the approval operation submits an approve call at the token
contract naming the AMM as spender for the largest representable amount,
subscribes to the Approval event with owner and spender topics and no
value filter, succeeds with the unit value when both the submission and
the event complete inside the single shared timeout, and fails with a
timeout error when that timeout elapses before both complete. -/
theorem approve_submits_max_and_single_timeout (tb : TokenBridge) (T : Nat)
    (sub : TxRequest → Outcome Nat) (ev : EventFilter → Outcome Event) :
    approve_request tb
      = { to_address := tb.foreign_dai_contract_address
          data := .encoded "approve(address,uint256)"
            [.addr tb.uniswap_address, .uint uint256_max_value]
          value := 0
          own_address := tb.own_address
          secret := tb.secret
          options := [.gasPriceMultiplier 2] }
  ∧ approvalFilter tb
      = { contract_address := tb.foreign_dai_contract_address
          event_signature := "Approval(address,address,uint256)"
          topic1 := some [tb.own_address]
          topic2 := some [tb.uniswap_address]
          topic3 := none }
  ∧ (∀ ts h te r, sub (approve_request tb) = .ok ts h →
       ev (approvalFilter tb) = .ok te r → max ts te ≤ T →
       approve_uniswap_dai_transfers tb T sub ev = .ok (max ts te) ())
  ∧ (∀ ts h te r, sub (approve_request tb) = .ok ts h →
       ev (approvalFilter tb) = .ok te r → T < max ts te →
       approve_uniswap_dai_transfers tb T sub ev = .err T .timeout)
  ∧ (sub (approve_request tb) = .never → ev (approvalFilter tb) = .never →
       approve_uniswap_dai_transfers tb T sub ev = .err T .timeout) := by
  refine ⟨rfl, rfl, ?_, ?_, ?_⟩
  · intro ts h te r hs he hle
    simp only [approve_uniswap_dai_transfers, hs, he, Outcome.join_ok_ok,
      Outcome.timeout_ok_early _ hle]
  · intro ts h te r hs he hlt
    simp only [approve_uniswap_dai_transfers, hs, he, Outcome.join_ok_ok,
      Outcome.timeout_ok_late _ hlt]
  · intro hs he
    simp only [approve_uniswap_dai_transfers, hs, he]
    rfl

/-- C8 witness: a run in which submission and event complete at times 1
and 2 inside timeout 5 succeeds with the unit value. -/
theorem approve_submits_max_and_single_timeout_witness :
    approve_uniswap_dai_transfers tbSample 5 (fun _ => .ok 1 9)
      (fun _ => .ok 2 ⟨[]⟩) = .ok (max 1 2) () :=
  (approve_submits_max_and_single_timeout tbSample 5 (fun _ => .ok 1 9)
    (fun _ => .ok 2 ⟨[]⟩)).2.2.1 1 9 2 ⟨[]⟩ rfl rfl (by decide)

/-- C4: after a successful join, the realized output is read from the
fourth topic slot of the matched event with an unchecked index: when the
event carries fewer than four topics both swap operations panic instead
of returning an error, and when a fourth topic exists they return its
big-endian decoding. -/
theorem realized_output_read_from_topic_3 (tb : TokenBridge)
    (amount T tB ts tP tsb hsh te : Nat) (resp : List Nat) (r : Event)
    (sub : TxRequest → Outcome Nat) (ev : EventFilter → Outcome Event)
    (hlen : 32 ≤ resp.length) (hadd : ts + T ≤ uint256_max_value) :
    (sub (eth_to_dai_swap_request tb amount (from_bytes_be (resp.take 32))
        (ts + T)) = .ok tsb hsh →
     ev (tokenPurchaseFilter tb) = .ok te r → te ≤ T →
       (r.topics.length < 4 →
          eth_to_dai_swap tb amount T (.ok tB ⟨ts⟩) (.ok tP resp) sub ev
            = .panicked (max tsb te))
     ∧ (∀ topic, r.topics.get? 3 = some topic →
          eth_to_dai_swap tb amount T (.ok tB ⟨ts⟩) (.ok tP resp) sub ev
            = .ok (max tsb te) (from_bytes_be topic)))
  ∧ (sub (dai_to_eth_swap_request tb amount (from_bytes_be (resp.take 32))
        (ts + T)) = .ok tsb hsh →
     ev (ethPurchaseFilter tb) = .ok te r → te ≤ T →
       (r.topics.length < 4 →
          dai_to_eth_swap tb amount T (.ok tB ⟨ts⟩) (.ok tP resp) sub ev
            = .panicked (max tsb te))
     ∧ (∀ topic, r.topics.get? 3 = some topic →
          dai_to_eth_swap tb amount T (.ok tB ⟨ts⟩) (.ok tP resp) sub ev
            = .ok (max tsb te) (from_bytes_be topic))) := by
  constructor
  · intro hs he hte
    rw [eth_to_dai_swap_eval tb amount T tB ts tP resp sub ev hlen hadd]
    constructor
    · intro hlt4
      simp only [swap_submit_and_confirm, hs, he,
        Outcome.timeout_ok_early _ hte, Outcome.join_ok_ok,
        List.get?_eq_none.mpr (Nat.lt_succ_iff.mp hlt4)]
    · intro topic htopic
      simp only [swap_submit_and_confirm, hs, he,
        Outcome.timeout_ok_early _ hte, Outcome.join_ok_ok, htopic]
  · intro hs he hte
    rw [dai_to_eth_swap_eval tb amount T tB ts tP resp sub ev hlen hadd]
    constructor
    · intro hlt4
      simp only [swap_submit_and_confirm, hs, he,
        Outcome.timeout_ok_early _ hte, Outcome.join_ok_ok,
        List.get?_eq_none.mpr (Nat.lt_succ_iff.mp hlt4)]
    · intro topic htopic
      simp only [swap_submit_and_confirm, hs, he,
        Outcome.timeout_ok_early _ hte, Outcome.join_ok_ok, htopic]

/-- C3: the timeout wraps only the event wait of a swap, not the
submission.  When the Purchase event is never delivered the swap does
fail with a timeout error, but at the failing input where the submission
future never resolves while the event arrives inside the window, the
swap future never resolves (the operation hangs) instead of failing with
a timeout, contradicting the timeout guarantee stated by the code. -/
theorem swap_hangs_when_submission_never_resolves :
    eth_to_dai_swap tbSample 1 5 (.ok 0 ⟨100⟩) (.ok 0 (List.replicate 32 0))
      (fun _ => .never) (fun _ => .never) = .err 5 .timeout
  ∧ eth_to_dai_swap tbSample 1 5 (.ok 0 ⟨100⟩) (.ok 0 (List.replicate 32 0))
      (fun _ => .never)
      (fun _ => .ok 2 ⟨[[0], [0], [0], List.replicate 32 7]⟩)
      = .never := by
  constructor
  · decide
  · decide

/-- C4 witness: with a matched event carrying only three topics the
coin-to-token swap panics. -/
theorem realized_output_read_from_topic_3_witness :
    eth_to_dai_swap tbSample 7 5 (.ok 0 ⟨100⟩) (.ok 0 (List.replicate 32 0))
      (fun _ => .ok 1 9) (fun _ => .ok 2 ⟨[[0], [0], [0]]⟩)
      = .panicked (max 1 2) :=
  ((realized_output_read_from_topic_3 tbSample 7 5 0 100 0 1 9 2
    (List.replicate 32 0) ⟨[[0], [0], [0]]⟩ (fun _ => .ok 1 9)
    (fun _ => .ok 2 ⟨[[0], [0], [0]]⟩) (by decide) (by decide)).1
    rfl rfl (by decide)).1 (by decide)

/-- A sample matched event with four topics, used to instantiate
universally quantified statements at concrete inputs. -/
def evSample : Event := ⟨[[0], [0], [0], List.replicate 32 7]⟩

/-- C1: a swap or approval reports success only when the submission
future resolved and the matching confirmation event, filtered to the own
address of the engine, was observed within the timeout; and when either
side fails, or the timeout fires because the event stays away or arrives
late, the operation returns an error. -/
theorem success_requires_submission_and_confirmation (tb : TokenBridge)
    (amount T : Nat) (blockO : Outcome Block) (priceCallO : Outcome (List Nat))
    (sub : TxRequest → Outcome Nat) (ev : EventFilter → Outcome Event) :
    (∀ t v, eth_to_dai_swap tb amount T blockO priceCallO sub ev = .ok t v →
       (∃ q d tsb h, sub (eth_to_dai_swap_request tb amount q d) = .ok tsb h)
     ∧ (∃ te r, ev (tokenPurchaseFilter tb) = .ok te r ∧ te ≤ T))
  ∧ (∀ t v, dai_to_eth_swap tb amount T blockO priceCallO sub ev = .ok t v →
       (∃ q d tsb h, sub (dai_to_eth_swap_request tb amount q d) = .ok tsb h)
     ∧ (∃ te r, ev (ethPurchaseFilter tb) = .ok te r ∧ te ≤ T))
  ∧ (∀ t v, approve_uniswap_dai_transfers tb T sub ev = .ok t v →
       (∃ tsb h, sub (approve_request tb) = .ok tsb h ∧ tsb ≤ T)
     ∧ (∃ te r, ev (approvalFilter tb) = .ok te r ∧ te ≤ T))
  ∧ (∀ tB ts tP resp, blockO = .ok tB ⟨ts⟩ → priceCallO = .ok tP resp →
       32 ≤ resp.length → ts + T ≤ uint256_max_value →
       (ev (tokenPurchaseFilter tb) = .never →
          ∃ t' e', eth_to_dai_swap tb amount T blockO priceCallO sub ev
            = .err t' e')
     ∧ (∀ te r, ev (tokenPurchaseFilter tb) = .ok te r → T < te →
          ∃ t' e', eth_to_dai_swap tb amount T blockO priceCallO sub ev
            = .err t' e')
     ∧ (∀ tse es, sub (eth_to_dai_swap_request tb amount
           (from_bytes_be (resp.take 32)) (ts + T)) = .err tse es →
          ∃ t' e', eth_to_dai_swap tb amount T blockO priceCallO sub ev
            = .err t' e')
     ∧ (ev (ethPurchaseFilter tb) = .never →
          ∃ t' e', dai_to_eth_swap tb amount T blockO priceCallO sub ev
            = .err t' e')
     ∧ (∀ te r, ev (ethPurchaseFilter tb) = .ok te r → T < te →
          ∃ t' e', dai_to_eth_swap tb amount T blockO priceCallO sub ev
            = .err t' e')
     ∧ (∀ tse es, sub (dai_to_eth_swap_request tb amount
           (from_bytes_be (resp.take 32)) (ts + T)) = .err tse es →
          ∃ t' e', dai_to_eth_swap tb amount T blockO priceCallO sub ev
            = .err t' e'))
  ∧ ((ev (approvalFilter tb) = .never →
        ∃ t' e', approve_uniswap_dai_transfers tb T sub ev = .err t' e')
   ∧ (∀ te r, ev (approvalFilter tb) = .ok te r → T < te →
        ∃ t' e', approve_uniswap_dai_transfers tb T sub ev = .err t' e')
   ∧ (∀ tse es, sub (approve_request tb) = .err tse es →
        ∃ t' e', approve_uniswap_dai_transfers tb T sub ev = .err t' e')) := by
  refine ⟨?_, ?_, ?_, ?_, ?_, ?_⟩
  · -- eth swap success direction
    intro t v h
    cases hj : Outcome.join blockO (eth_to_dai_price tb amount priceCallO) with
    | err t0 e0 => simp [eth_to_dai_swap, hj] at h
    | never => simp [eth_to_dai_swap, hj] at h
    | ok t0 p =>
      obtain ⟨block, q⟩ := p
      simp only [eth_to_dai_swap, hj] at h
      cases hd : uint256_add block.timestamp T with
      | none => rw [hd] at h; simp at h
      | some d =>
        rw [hd] at h
        dsimp only at h
        cases hj2 : Outcome.join
            (sub (eth_to_dai_swap_request tb amount q d))
            (Outcome.timeout T (ev (tokenPurchaseFilter tb))) with
        | err t2 e2 => simp [swap_submit_and_confirm, hj2] at h
        | never => simp [swap_submit_and_confirm, hj2] at h
        | ok t2 p2 =>
          obtain ⟨tx, response⟩ := p2
          obtain ⟨t1', t2', hsub', htm', hmax⟩ := Outcome.join_eq_ok hj2
          obtain ⟨hev', hle'⟩ := Outcome.timeout_eq_ok htm'
          exact ⟨⟨q, d, t1', tx, hsub'⟩, ⟨t2', response, hev', hle'⟩⟩
  · -- dai swap success direction
    intro t v h
    cases hj : Outcome.join blockO (dai_to_eth_price tb amount priceCallO) with
    | err t0 e0 => simp [dai_to_eth_swap, hj] at h
    | never => simp [dai_to_eth_swap, hj] at h
    | ok t0 p =>
      obtain ⟨block, q⟩ := p
      simp only [dai_to_eth_swap, hj] at h
      cases hd : uint256_add block.timestamp T with
      | none => rw [hd] at h; simp at h
      | some d =>
        rw [hd] at h
        dsimp only at h
        cases hj2 : Outcome.join
            (sub (dai_to_eth_swap_request tb amount q d))
            (Outcome.timeout T (ev (ethPurchaseFilter tb))) with
        | err t2 e2 => simp [swap_submit_and_confirm, hj2] at h
        | never => simp [swap_submit_and_confirm, hj2] at h
        | ok t2 p2 =>
          obtain ⟨tx, response⟩ := p2
          obtain ⟨t1', t2', hsub', htm', hmax⟩ := Outcome.join_eq_ok hj2
          obtain ⟨hev', hle'⟩ := Outcome.timeout_eq_ok htm'
          exact ⟨⟨q, d, t1', tx, hsub'⟩, ⟨t2', response, hev', hle'⟩⟩
  · -- approval success direction
    intro t v h
    cases hjt : Outcome.timeout T
        (Outcome.join (sub (approve_request tb)) (ev (approvalFilter tb))) with
    | err t2 e2 => simp [approve_uniswap_dai_transfers, hjt] at h
    | never => simp [approve_uniswap_dai_transfers, hjt] at h
    | ok t2 p =>
      obtain ⟨hjo, hle⟩ := Outcome.timeout_eq_ok hjt
      obtain ⟨t1', t2', hsub', hev', hmax⟩ := Outcome.join_eq_ok hjo
      subst hmax
      exact ⟨⟨t1', p.1, hsub', le_trans (le_max_left _ _) hle⟩,
        ⟨t2', p.2, hev', le_trans (le_max_right _ _) hle⟩⟩
  · -- swap error directions
    intro tB ts tP resp hB hP hlen hadd
    subst hB; subst hP
    have hevalE := eth_to_dai_swap_eval tb amount T tB ts tP resp sub ev
      hlen hadd
    have hevalD := dai_to_eth_swap_eval tb amount T tB ts tP resp sub ev
      hlen hadd
    refine ⟨?_, ?_, ?_, ?_, ?_, ?_⟩
    · intro hev
      obtain ⟨t', e', hjo⟩ := Outcome.join_err_right
        (sub (eth_to_dai_swap_request tb amount (from_bytes_be (resp.take 32))
          (ts + T)))
        (show Outcome.timeout T (ev (tokenPurchaseFilter tb))
          = .err T .timeout from by rw [hev]; rfl)
      refine ⟨t', e', ?_⟩
      rw [hevalE]
      exact swap_submit_and_confirm_err_of_join hjo
    · intro te r hev hlt
      obtain ⟨t', e', hjo⟩ := Outcome.join_err_right
        (sub (eth_to_dai_swap_request tb amount (from_bytes_be (resp.take 32))
          (ts + T)))
        (show Outcome.timeout T (ev (tokenPurchaseFilter tb))
          = .err T .timeout from by rw [hev]; exact Outcome.timeout_ok_late r hlt)
      refine ⟨t', e', ?_⟩
      rw [hevalE]
      exact swap_submit_and_confirm_err_of_join hjo
    · intro tse es hsub
      obtain ⟨t', e', hjo⟩ := Outcome.join_err_left
        (Outcome.timeout T (ev (tokenPurchaseFilter tb))) hsub
      refine ⟨t', e', ?_⟩
      rw [hevalE]
      exact swap_submit_and_confirm_err_of_join hjo
    · intro hev
      obtain ⟨t', e', hjo⟩ := Outcome.join_err_right
        (sub (dai_to_eth_swap_request tb amount (from_bytes_be (resp.take 32))
          (ts + T)))
        (show Outcome.timeout T (ev (ethPurchaseFilter tb))
          = .err T .timeout from by rw [hev]; rfl)
      refine ⟨t', e', ?_⟩
      rw [hevalD]
      exact swap_submit_and_confirm_err_of_join hjo
    · intro te r hev hlt
      obtain ⟨t', e', hjo⟩ := Outcome.join_err_right
        (sub (dai_to_eth_swap_request tb amount (from_bytes_be (resp.take 32))
          (ts + T)))
        (show Outcome.timeout T (ev (ethPurchaseFilter tb))
          = .err T .timeout from by rw [hev]; exact Outcome.timeout_ok_late r hlt)
      refine ⟨t', e', ?_⟩
      rw [hevalD]
      exact swap_submit_and_confirm_err_of_join hjo
    · intro tse es hsub
      obtain ⟨t', e', hjo⟩ := Outcome.join_err_left
        (Outcome.timeout T (ev (ethPurchaseFilter tb))) hsub
      refine ⟨t', e', ?_⟩
      rw [hevalD]
      exact swap_submit_and_confirm_err_of_join hjo
  · -- approval error direction, the event wait never resolves
    intro hev
    cases hs : sub (approve_request tb) with
    | ok t1 v1 =>
      refine ⟨T, .timeout, ?_⟩
      simp only [approve_uniswap_dai_transfers, hs, hev]
      rfl
    | err t1 e1 =>
      obtain ⟨t', e', htm⟩ := Outcome.timeout_err T
        (show Outcome.join (sub (approve_request tb))
          (ev (approvalFilter tb)) = .err t1 e1 from by rw [hs, hev]; rfl)
      exact ⟨t', e', by simp only [approve_uniswap_dai_transfers, htm]⟩
    | never =>
      refine ⟨T, .timeout, ?_⟩
      simp only [approve_uniswap_dai_transfers, hs, hev]
      rfl
  · -- approval error directions, late event or failed submission
    refine ⟨?_, ?_⟩
    · intro te r hev hlt
      cases hs : sub (approve_request tb) with
      | ok t1 v1 =>
        refine ⟨T, .timeout, ?_⟩
        simp only [approve_uniswap_dai_transfers, hs, hev, Outcome.join_ok_ok,
          Outcome.timeout_ok_late _ (lt_of_lt_of_le hlt (le_max_right t1 te))]
      | err t1 e1 =>
        obtain ⟨t', e', htm⟩ := Outcome.timeout_err T
          (show Outcome.join (sub (approve_request tb))
            (ev (approvalFilter tb)) = .err t1 e1 from by rw [hs, hev]; rfl)
        exact ⟨t', e', by simp only [approve_uniswap_dai_transfers, htm]⟩
      | never =>
        refine ⟨T, .timeout, ?_⟩
        simp only [approve_uniswap_dai_transfers, hs, hev]
        rfl
    · intro tse es hsub
      obtain ⟨t1, e1, hjo⟩ := Outcome.join_err_left (ev (approvalFilter tb)) hsub
      obtain ⟨t', e', htm⟩ := Outcome.timeout_err T hjo
      exact ⟨t', e', by simp only [approve_uniswap_dai_transfers, htm]⟩


/-- C1 witness: a run in which the submission resolves at time 1 and the
matching event arrives at time 2 inside timeout 5 satisfies both
requirements extracted from the success of the swap. -/
theorem success_requires_submission_and_confirmation_witness :
    (∃ q d tsb h, (fun _ : TxRequest => Outcome.ok 1 9)
        (eth_to_dai_swap_request tbSample 1 q d) = .ok tsb h)
  ∧ (∃ te r, (fun _ : EventFilter => Outcome.ok 2 evSample)
        (tokenPurchaseFilter tbSample) = .ok te r ∧ te ≤ 5) :=
  (success_requires_submission_and_confirmation tbSample 1 5 (.ok 0 ⟨100⟩)
    (.ok 0 (List.replicate 32 0)) (fun _ => .ok 1 9)
    (fun _ => .ok 2 evSample)).1 2 (from_bytes_be (List.replicate 32 7))
    (by decide)
